import Mathlib

/-!
Verification development for the react-native-ble-manager repository.

The TypeScript utility layer (src/src/types.ts, class DataUtils) and the iOS
bridge (src/ios/RNBleManager.m: BleManager, RNBleManager, Data extensions) are
shallowly embedded below.  Byte buffers (Uint8Array / Data) are modelled as
List Nat with entries below 256; JavaScript numbers appearing in the integer
codecs are modelled as Int together with explicit ToInt32 / ToUint32
conversions, mirroring the semantics of the JavaScript bitwise operators.
-/

/-! ## JavaScript number semantics for the bitwise operators used by DataUtils -/

/-- ECMAScript ToUint32: the value modulo 2^32, as the unsigned bit pattern. -/
def toUint32 (v : Int) : Nat := (v % (4294967296 : Int)).toNat

/-- ECMAScript ToInt32: the value modulo 2^32, reinterpreted as signed
two's-complement (values at or above 2^31 wrap to negatives). -/
def toInt32 (v : Int) : Int :=
  let u : Int := v % (4294967296 : Int)
  if u < 2147483648 then u else u - 4294967296

/-- Storing a JavaScript number into a Uint8Array applies ToUint8
(reduction modulo 256). -/
def toUint8 (v : Int) : Nat := (v % (256 : Int)).toNat

/-- JavaScript left shift: both operands pass through ToInt32, the shift count
is masked to 5 bits, and the result is again a signed 32-bit value. -/
def jsShl (a : Int) (b : Nat) : Int := toInt32 (toInt32 a * 2 ^ (b % 32))

/-- JavaScript sign-propagating right shift: floor division of the signed
32-bit value by the corresponding power of two. -/
def jsShr (a : Int) (b : Nat) : Int := Int.fdiv (toInt32 a) (2 ^ (b % 32))

/-- JavaScript bitwise OR on the 32-bit patterns, result signed. -/
def jsOr (a b : Int) : Int := toInt32 (Int.ofNat (toUint32 a ||| toUint32 b))

/-- JavaScript bitwise AND on the 32-bit patterns, result signed. -/
def jsAnd (a b : Int) : Int := toInt32 (Int.ofNat (toUint32 a &&& toUint32 b))

namespace DataUtils

/-! ## DataUtils numeric codecs (src/src/types.ts)

Decoders index into the buffer with `data[i]`; the embeddings use `List.getD`
with default 0, which agrees with the source whenever the buffer has the
expected length (the only situation the claims quantify over). -/

/-- DataUtils.uint8ArrayToUint16LE: `(data[1] << 8) | data[0]`. -/
def uint8ArrayToUint16LE (data : List Nat) : Int :=
  jsOr (jsShl (Int.ofNat (data.getD 1 0)) 8) (Int.ofNat (data.getD 0 0))

/-- DataUtils.uint16LEToUint8Array: `[value & 0xff, (value >> 8) & 0xff]`. -/
def uint16LEToUint8Array (value : Int) : List Nat :=
  [toUint8 (jsAnd value 255), toUint8 (jsAnd (jsShr value 8) 255)]

/-- DataUtils.uint8ArrayToUint32LE:
`(data[3] << 24) | (data[2] << 16) | (data[1] << 8) | data[0]`. -/
def uint8ArrayToUint32LE (data : List Nat) : Int :=
  jsOr (jsOr (jsOr (jsShl (Int.ofNat (data.getD 3 0)) 24)
    (jsShl (Int.ofNat (data.getD 2 0)) 16))
    (jsShl (Int.ofNat (data.getD 1 0)) 8))
    (Int.ofNat (data.getD 0 0))

/-- DataUtils.uint32LEToUint8Array. -/
def uint32LEToUint8Array (value : Int) : List Nat :=
  [toUint8 (jsAnd value 255),
   toUint8 (jsAnd (jsShr value 8) 255),
   toUint8 (jsAnd (jsShr value 16) 255),
   toUint8 (jsAnd (jsShr value 24) 255)]

/-- DataUtils.uint8ArrayToInt16LE: reinterprets the unsigned 16-bit decode as
two's-complement. -/
def uint8ArrayToInt16LE (data : List Nat) : Int :=
  let uint := uint8ArrayToUint16LE data
  if uint > 32767 then uint - 65536 else uint

/-- DataUtils.int16LEToUint8Array: `uint16LEToUint8Array(value & 0xffff)`. -/
def int16LEToUint8Array (value : Int) : List Nat :=
  uint16LEToUint8Array (jsAnd value 65535)

/-- DataUtils.uint8ArrayToInt32LE: the guard `uint > 0x7fffffff` is applied to
the result of `uint8ArrayToUint32LE`. -/
def uint8ArrayToInt32LE (data : List Nat) : Int :=
  let uint := uint8ArrayToUint32LE data
  if uint > 2147483647 then uint - 4294967296 else uint

/-- DataUtils.int32LEToUint8Array: `uint32LEToUint8Array(value & 0xffffffff)`. -/
def int32LEToUint8Array (value : Int) : List Nat :=
  uint32LEToUint8Array (jsAnd value 4294967295)

/-- DataUtils.uint8ArrayToUint16BE: `(data[0] << 8) | data[1]`. -/
def uint8ArrayToUint16BE (data : List Nat) : Int :=
  jsOr (jsShl (Int.ofNat (data.getD 0 0)) 8) (Int.ofNat (data.getD 1 0))

/-- DataUtils.uint16BEToUint8Array: `[(value >> 8) & 0xff, value & 0xff]`. -/
def uint16BEToUint8Array (value : Int) : List Nat :=
  [toUint8 (jsAnd (jsShr value 8) 255), toUint8 (jsAnd value 255)]

/-- DataUtils.uint8ArrayToUint32BE:
`(data[0] << 24) | (data[1] << 16) | (data[2] << 8) | data[3]`. -/
def uint8ArrayToUint32BE (data : List Nat) : Int :=
  jsOr (jsOr (jsOr (jsShl (Int.ofNat (data.getD 0 0)) 24)
    (jsShl (Int.ofNat (data.getD 1 0)) 16))
    (jsShl (Int.ofNat (data.getD 2 0)) 8))
    (Int.ofNat (data.getD 3 0))

/-- DataUtils.uint32BEToUint8Array. -/
def uint32BEToUint8Array (value : Int) : List Nat :=
  [toUint8 (jsAnd (jsShr value 24) 255),
   toUint8 (jsAnd (jsShr value 16) 255),
   toUint8 (jsAnd (jsShr value 8) 255),
   toUint8 (jsAnd value 255)]

/-- DataUtils.uint8ArrayToInt16BE. -/
def uint8ArrayToInt16BE (data : List Nat) : Int :=
  let uint := uint8ArrayToUint16BE data
  if uint > 32767 then uint - 65536 else uint

/-- DataUtils.int16BEToUint8Array. -/
def int16BEToUint8Array (value : Int) : List Nat :=
  uint16BEToUint8Array (jsAnd value 65535)

/-- DataUtils.uint8ArrayToInt32BE. -/
def uint8ArrayToInt32BE (data : List Nat) : Int :=
  let uint := uint8ArrayToUint32BE data
  if uint > 2147483647 then uint - 4294967296 else uint

/-- DataUtils.int32BEToUint8Array. -/
def int32BEToUint8Array (value : Int) : List Nat :=
  uint32BEToUint8Array (jsAnd value 4294967295)

end DataUtils

/-! ## Hexadecimal conversions -/

/-- Value of one hexadecimal digit character, if it is one. -/
def hexDigitVal (c : Char) : Option Nat :=
  if '0' ≤ c ∧ c ≤ '9' then some (c.toNat - '0'.toNat)
  else if 'a' ≤ c ∧ c ≤ 'f' then some (c.toNat - 'a'.toNat + 10)
  else if 'A' ≤ c ∧ c ≤ 'F' then some (c.toNat - 'A'.toNat + 10)
  else none

namespace DataUtils

/-- The chunks `hex.substr(i, 2)` taken by the loop of
DataUtils.hexToUint8Array: pairs of characters, a trailing odd character
forming a final one-character chunk. -/
def chunkPairs : List Char → List (List Char)
  | [] => []
  | [c] => [[c]]
  | c1 :: c2 :: rest => [c1, c2] :: chunkPairs rest

/-- A character skipped as leading whitespace by JavaScript parseInt. -/
def jsWhitespace (c : Char) : Bool :=
  c = ' ' || c = '\t' || c = '\n' || c = '\r' || c = '\x0b' || c = '\x0c'

/-- The value of the longest leading run of hexadecimal digits, `none` when
there is none (written for the at-most-two-character chunks produced by
chunkPairs, the only inputs it receives). -/
def hexPrefixVal : List Char → Option Nat
  | [] => none
  | c1 :: rest =>
    match hexDigitVal c1 with
    | none => none
    | some v1 =>
      match rest with
      | [] => some v1
      | c2 :: _ =>
        match hexDigitVal c2 with
        | none => some v1
        | some v2 => some (16 * v1 + v2)

/-- JavaScript `parseInt(s, 16)` on the one- or two-character chunks taken by
hexToUint8Array: leading whitespace is skipped, one leading sign character is
accepted and applied, a "0x"/"0X" prefix is stripped, and the result is the
signed value of the longest following run of hexadecimal digits — `none`
(NaN) when no digit follows. -/
def parseIntHexChunk (cs : List Char) : Option Int :=
  match cs.dropWhile jsWhitespace with
  | '+' :: rest => (hexPrefixVal rest).map Int.ofNat
  | '-' :: rest => (hexPrefixVal rest).map (fun v => -(Int.ofNat v))
  | '0' :: 'x' :: rest => (hexPrefixVal rest).map Int.ofNat
  | '0' :: 'X' :: rest => (hexPrefixVal rest).map Int.ofNat
  | rest => (hexPrefixVal rest).map Int.ofNat

/-- DataUtils.hexToUint8Array: parses each two-character chunk with
`parseInt(_, 16)` and pushes the result into a Uint8Array, whose store
applies ToUint8 — NaN becomes the byte 0 and a negative value wraps modulo
256; no input is ever rejected. -/
def hexToUint8Array (hex : String) : List Nat :=
  (chunkPairs hex.toList).map (fun chunk =>
    match parseIntHexChunk chunk with
    | none => 0
    | some v => toUint8 v)

end DataUtils

namespace SwiftData

/-- The Swift standard library initializer `UInt8(_, radix: 16)` applied to a
two-character substring, as used by `Data.init?(hexString:)`: two hexadecimal
digits give the byte in big-endian nibble order, and — per the documented
acceptance of one leading sign character — "+d" gives the digit value d while
"-d" is accepted only at magnitude zero (an unsigned type cannot hold a
negative value); every other pair is nil.  Overflow is impossible at two
characters. -/
def uint8FromHexPair (c1 c2 : Char) : Option Nat :=
  match hexDigitVal c1 with
  | some hi =>
    match hexDigitVal c2 with
    | some lo => some (16 * hi + lo)
    | none => none
  | none =>
    if c1 = '+' then hexDigitVal c2
    else if c1 = '-' then
      match hexDigitVal c2 with
      | some 0 => some 0
      | _ => none
    else none

/-- The parsing loop of `Data.init?(hexString:)` over the character sequence:
consumes two characters at a time, failing on any pair the UInt8 initializer
rejects. -/
def hexPairsToBytes : List Char → Option (List Nat)
  | [] => some []
  | [_] => none
  | c1 :: c2 :: rest =>
    match uint8FromHexPair c1 c2 with
    | none => none
    | some b =>
      match hexPairsToBytes rest with
      | none => none
      | some bs => some (b :: bs)

/-- `Data.init?(hexString:)` from src/ios/RNBleManager.m: guards that the
length is even, then parses two characters per byte, failing on any pair the
UInt8 initializer rejects. -/
def dataFromHexString (hexString : String) : Option (List Nat) :=
  if hexString.length % 2 = 0 then hexPairsToBytes hexString.toList else none

/-- One hexadecimal digit character, lower case, for `String(format: "%02x")`. -/
def hexDigitChar (n : Nat) : Char :=
  if n < 10 then Char.ofNat (48 + n) else Char.ofNat (97 + (n - 10))

/-- Two lower-case hexadecimal digits of a byte (`String(format: "%02x", b)`
for b < 256, the range of UInt8). -/
def byteToHexChars (b : Nat) : List Char :=
  [hexDigitChar (b / 16 % 16), hexDigitChar (b % 16)]

/-- The `hexString` computed property of the Data extension: each byte
formatted as two lower-case hexadecimal digits, joined. -/
def dataHexString (bytes : List Nat) : String :=
  String.mk (bytes.foldr (fun b acc => byteToHexChars b ++ acc) [])

end SwiftData

/-! ## Spec-side definition for the hex decoding claim (C7).

Written from the specification words: one byte per two hexadecimal characters,
big-endian nibble order within each byte. -/

/-- Bytes described by the specification for a valid hex string: for each
character pair, sixteen times the first digit plus the second. -/
def hexPairBytes : List Char → List Nat
  | c1 :: c2 :: rest =>
    (16 * (hexDigitVal c1).getD 0 + (hexDigitVal c2).getD 0) :: hexPairBytes rest
  | _ => []

namespace DataUtils

/-! ## MTU-based packetization (src/src/types.ts) -/

/-- `data.slice(i, e)` for the in-range indices reached by the split loop
(0 ≤ i ≤ e ≤ data.length whenever the loop terminates). -/
def jsSlice (data : List Nat) (i e : Int) : List Nat :=
  (data.drop i.toNat).take (e - i).toNat

/-- The `for (let i = 0; i < data.length; i += maxPayloadSize)` loop of
DataUtils.splitIntoPackets, with explicit fuel: `none` means the loop has not
finished within `fuel` iterations.  When `maxPayloadSize ≤ 0` and the data is
non-empty the index never passes the bound, so the loop never finishes for any
amount of fuel (see splitLoop_none_of_nonpos). -/
def splitLoop (data : List Nat) (maxPayloadSize : Int) :
    Nat → Int → List (List Nat) → Option (List (List Nat))
  | 0, _, _ => none
  | fuel + 1, i, packets =>
    if i < (data.length : Int) then
      splitLoop data maxPayloadSize fuel (i + maxPayloadSize)
        (packets ++ [jsSlice data i (min (i + maxPayloadSize) (data.length : Int))])
    else
      some packets

/-- DataUtils.splitIntoPackets: payload per packet is `mtu - headerSize`; the
loop needs at most `data.length + 1` iterations whenever it terminates at all
(the index advances by at least one per iteration when the payload size is
positive). -/
def splitIntoPackets (data : List Nat) (mtu : Int) (headerSize : Int) :
    Option (List (List Nat)) :=
  splitLoop data (mtu - headerSize) (data.length + 1) 0 []

/-- DataUtils.reassemblePackets: copies each packet at the running offset,
which concatenates the packets in the given order. -/
def reassemblePackets (packets : List (List Nat)) : List Nat :=
  packets.foldl (fun acc packet => acc ++ packet) []

/-- Chunking of a list into pieces of `m` elements, the last piece possibly
shorter: closed form of the split loop for positive payload size. -/
def chunk (m : Nat) (l : List Nat) : List (List Nat) :=
  if h : m = 0 ∨ l = [] then []
  else
    have hm : m ≠ 0 := fun hc => h (Or.inl hc)
    have hl : l ≠ [] := fun hc => h (Or.inr hc)
    have : l.length - m < l.length := by
      have : 0 < l.length := List.length_pos.mpr hl
      omega
    l.take m :: chunk m (l.drop m)
termination_by l.length
decreasing_by simpa [List.length_drop] using this

end DataUtils

/-! ## iOS session-manager model (src/ios/RNBleManager.m)

The BleManager class and the RNBleManager bridge are embedded as pure
functions from an explicit manager state.  Calls into CoreBluetooth, callback
invocations and scheduled closures are recorded as an ordered list of effects;
invoking an operation's completion closure is what settles the corresponding
React Native promise (resolver on a nil error, rejecter otherwise).  Timer
deadlines, dispatch queues and log output are not modelled: no claim below
depends on them. -/

/-- CBPeripheralState. -/
inductive CBPeripheralState
  | disconnected
  | connecting
  | connected
  | disconnecting
deriving DecidableEq

/-- BleConnectionState (stable raw values 0..3). -/
inductive BleConnectionState
  | disconnected
  | connecting
  | connected
  | disconnecting
deriving DecidableEq

/-- The rawValue of a BleConnectionState. -/
def BleConnectionState.raw : BleConnectionState → Nat
  | .disconnected => 0
  | .connecting => 1
  | .connected => 2
  | .disconnecting => 3

/-- CBCharacteristicProperties bits consulted by the bridge. -/
inductive CharProp
  | read
  | write
  | writeWithoutResponse
  | notify
  | indicate
deriving DecidableEq

/-- A discovered GATT characteristic (CBCharacteristic): identifier,
capability set, last received value. -/
structure Characteristic where
  uuid : String
  props : List CharProp
  value : Option (List Nat)
deriving DecidableEq

/-- A discovered GATT service (CBService); `characteristics` is optional
exactly as in CoreBluetooth (nil before characteristic discovery). -/
structure Service where
  uuid : String
  isPrimary : Bool
  characteristics : Option (List Characteristic)
deriving DecidableEq

/-- A CBPeripheral as far as the bridge reads it: identifier string
(uppercase UUID), optional discovered service tree, connection state. -/
structure Peripheral where
  id : String
  services : Option (List Service)
  state : CBPeripheralState
deriving DecidableEq

/-- A scan result (BleDevice in RNBleManagerTypes). -/
structure BleDevice where
  id : String
  name : Option String
  rssi : Int
  manufacturerData : Option String
  serviceUUIDs : List String
  txPowerLevel : Option Int
  isConnectable : Bool
deriving DecidableEq

/-- BleScanFilter (RNBleManagerTypes): all fields optional. -/
structure BleScanFilter where
  serviceUUIDs : Option (List String)
  name : Option String
  namePrefix : Option String
  manufacturerData : Option (List Nat)
  minRssi : Option Int
deriving DecidableEq

/-- BleScanMode raw values 0..3. -/
inductive BleScanMode
  | lowPower
  | balanced
  | lowLatency
  | opportunistic
deriving DecidableEq

/-- BleScanOptions; the timeout is a TimeInterval whose exact value only
feeds the scan timer, which is not modelled. -/
structure BleScanOptions where
  scanMode : BleScanMode
  continuous : Bool
  allowDuplicates : Bool
deriving DecidableEq

/-- Write delivery mode (CBCharacteristicWriteType). -/
inductive WriteMode
  | withResponse
  | withoutResponse
deriving DecidableEq

/-- A call made into CoreBluetooth. -/
inductive RadioOp
  | scanForPeripherals (services : Option (List String)) (allowDuplicates : Bool)
  | stopScan
  | connectPeripheral (id : String)
  | cancelPeripheralConnection (id : String)
  | readValue (id charUuid : String)
  | writeValue (id charUuid : String) (data : List Nat) (mode : WriteMode)
  | discoverServices (id : String) (services : Option (List String))
  | setNotifyValue (id charUuid : String) (enabled : Bool)
deriving DecidableEq

/-- An event delivered to the registered callbacks (and from there sent over
the React Native event emitter). -/
inductive EmittedEvent
  | deviceDiscovered (device : BleDevice)
  | connectionStateChanged (id : String) (state : BleConnectionState)
  | notificationReceived (id charUuid hexValue : String)
deriving DecidableEq

/-- Invocation of the completion closure of the operation in flight: `ok` is
`completion(nil)`, `okValue` is `completion(value, nil)` (a read success), and
`err` carries the NSError description.  At the bridge the first two resolve
the caller's promise and the last rejects it. -/
inductive CompletionResult
  | ok
  | okValue (value : String)
  | err (message : String)
deriving DecidableEq

/-- One observable step produced by a modelled operation, in program order. -/
inductive Effect
  | completion (result : CompletionResult)
  | radio (op : RadioOp)
  | event (e : EmittedEvent)
  | scheduleReconnect (id : String)
deriving DecidableEq

/-- Whether an effect is an invocation of the caller's completion closure. -/
def Effect.isCompletion : Effect → Bool
  | .completion _ => true
  | _ => false

/-- Whether an effect is a call into the radio layer. -/
def Effect.isRadio : Effect → Bool
  | .radio _ => true
  | _ => false

/-- Whether an effect schedules an auto-reconnect attempt. -/
def Effect.isScheduleReconnect : Effect → Bool
  | .scheduleReconnect _ => true
  | _ => false

/-- Association-list lookup (Swift Dictionary subscript read). -/
def alookup {α : Type} : List (String × α) → String → Option α
  | [], _ => none
  | (k1, v) :: rest, k => if k1 = k then some v else alookup rest k

/-- Association-list assignment (Swift Dictionary subscript write). -/
def aset {α : Type} : List (String × α) → String → α → List (String × α)
  | [], k, v => [(k, v)]
  | (k1, v1) :: rest, k, v =>
    if k1 = k then (k, v) :: rest else (k1, v1) :: aset rest k v

/-- Whether a character is a hexadecimal digit (UUID alphabet). -/
def isHexDigitChar (c : Char) : Bool := (hexDigitVal c).isSome

/-- Whether a string is in the canonical 8-4-4-4-12 UUID format accepted by
Foundation's `UUID(uuidString:)` (case-insensitive hexadecimal digits with
dashes at positions 8, 13, 18 and 23). -/
def isUUIDString (s : String) : Bool :=
  let cs := s.toList
  cs.length = 36 &&
    (List.range 36).all (fun i =>
      if i = 8 || i = 13 || i = 18 || i = 23 then cs.getD i ' ' = '-'
      else isHexDigitChar (cs.getD i ' '))

/-- Character-wise upper-casing of a string. -/
def upperString (s : String) : String := String.mk (s.toList.map Char.toUpper)

/-- `UUID(uuidString: id)` followed by `.uuidString`: parsing succeeds exactly
on canonically formatted UUID strings and the canonical (uppercase) form is
what keys every dictionary of the manager. -/
def uuidFromString (s : String) : Option String :=
  if isUUIDString s then some (upperString s) else none

/-- The mutable stored properties of the BleManager singleton that the
modelled operations read or write.  Pending connections, connection
parameters and the scan timer are untouched by every claim and left out. -/
structure ManagerState where
  peripherals : List (String × Peripheral)
  autoReconnectMap : List (String × Bool)
  discoveredDevices : List (String × BleDevice)
  scanFilter : Option BleScanFilter
  scanOptions : Option BleScanOptions
deriving DecidableEq

namespace BleManager

/-- BleManager.getPeripheral: parse the identifier, then look it up. -/
def getPeripheral (s : ManagerState) (id : String) : Option Peripheral :=
  match uuidFromString id with
  | none => none
  | some key => alookup s.peripherals key

/-- BleManager.findCharacteristic: first service with the requested UUID,
then first characteristic with the requested UUID, through the optional
chains `peripheral.services?` and `service.characteristics?`. -/
def findCharacteristic (p : Peripheral) (serviceUuid charUuid : String) :
    Option Characteristic :=
  match p.services with
  | none => none
  | some services =>
    match services.find? (fun sv => sv.uuid = serviceUuid) with
    | none => none
    | some sv =>
      match sv.characteristics with
      | none => none
      | some cs => cs.find? (fun c => c.uuid = charUuid)

/-- BleManager.shouldFilterDevice: returns true (suppress) when an active
minRssi, exact-name or name-prefix predicate fails; the serviceUUIDs and
manufacturerData fields of the filter are never consulted here. -/
def shouldFilterDevice (scanFilter : Option BleScanFilter) (device : BleDevice) :
    Bool :=
  match scanFilter with
  | none => false
  | some filter =>
    match filter with
    | ⟨_, nameF, namePrefixF, _, minRssiF⟩ =>
      if (match minRssiF with
          | some minRssi => decide (device.rssi < minRssi)
          | none => false) then true
      else if (match nameF with
          | some n => decide (device.name ≠ some n)
          | none => false) then true
      else if (match namePrefixF with
          | some pfx =>
            !(match device.name with
              | some nm => pfx.isPrefixOf nm
              | none => false)
          | none => false) then true
      else false

/-- BleManager.startScan: stores the callback, filter and options, clears the
discoveredDevices dictionary, and asks CoreBluetooth to scan, forwarding the
allowDuplicates option (default false) and the service allow-list.  The scan
timer armed for non-continuous sessions is not modelled. -/
def startScan (s : ManagerState) (filter : Option BleScanFilter)
    (options : Option BleScanOptions) : ManagerState × List Effect :=
  let s1 := { s with
    scanFilter := filter
    scanOptions := options
    discoveredDevices := [] }
  let allowDup := match options with
    | some o => o.allowDuplicates
    | none => false
  let serviceList := match filter with
    | some f => f.serviceUUIDs
    | none => none
  (s1, [Effect.radio (RadioOp.scanForPeripherals serviceList allowDup)])

/-- The centralManager didDiscover delegate callback: build the device, drop
it if the filter rejects it, otherwise record it in discoveredDevices and
peripherals and invoke the scan callback (one deviceDiscovered event).  There
is no check against discoveredDevices before emitting. -/
def didDiscover (s : ManagerState) (periph : Peripheral) (device : BleDevice) :
    ManagerState × List Effect :=
  if shouldFilterDevice s.scanFilter device then (s, [])
  else
    ({ s with
        discoveredDevices := aset s.discoveredDevices periph.id device
        peripherals := aset s.peripherals periph.id periph },
      [Effect.event (EmittedEvent.deviceDiscovered device)])

/-- BleManager.disconnect: on an unparseable or unknown identifier, fail with
"Peripheral not found"; otherwise set the auto-reconnect flag to false (the
state returned is in force before any effect runs) and then cancel the
connection and complete successfully. -/
def disconnect (s : ManagerState) (id : String) : ManagerState × List Effect :=
  match uuidFromString id with
  | none => (s, [Effect.completion (CompletionResult.err "Peripheral not found")])
  | some key =>
    match alookup s.peripherals key with
    | none => (s, [Effect.completion (CompletionResult.err "Peripheral not found")])
    | some _ =>
      ({ s with autoReconnectMap := aset s.autoReconnectMap key false },
        [Effect.radio (RadioOp.cancelPeripheralConnection key),
         Effect.completion CompletionResult.ok])

/-- The centralManager didDisconnectPeripheral delegate callback: when the
auto-reconnect flag for the identifier is present and true, schedule one
reconnect attempt (the 3-second asyncAfter closure); then emit the
disconnected connection-state event. -/
def didDisconnect (s : ManagerState) (periph : Peripheral) :
    ManagerState × List Effect :=
  let reconnect := match alookup s.autoReconnectMap periph.id with
    | some true => [Effect.scheduleReconnect periph.id]
    | _ => []
  (s, reconnect ++
    [Effect.event (EmittedEvent.connectionStateChanged periph.id
      BleConnectionState.disconnected)])

/-- BleManager.readCharacteristic: unknown peripheral fails; a missing
service tree or characteristic makes findCharacteristic issue a discovery
instead of invoking the closure; a found characteristic gets a readValue
call — after which the function returns with the completion never invoked
(the comment in the source defers to didUpdateValueFor). -/
def readCharacteristic (s : ManagerState) (peripheralId serviceUuid charUuid : String) :
    List Effect :=
  match getPeripheral s peripheralId with
  | none => [Effect.completion (CompletionResult.err "Peripheral not found")]
  | some p =>
    match findCharacteristic p serviceUuid charUuid with
    | none => [Effect.radio (RadioOp.discoverServices p.id (some [serviceUuid]))]
    | some c => [Effect.radio (RadioOp.readValue p.id c.uuid)]

/-- BleManager.writeCharacteristic: unknown peripheral fails, an invalid hex
payload fails, a missing characteristic triggers discovery; otherwise the
delivery mode is chosen from the capability bits, writeWithoutResponse
preferred, and with neither bit set the operation completes with
"Characteristic not writable" and no radio call. -/
def writeCharacteristic (s : ManagerState)
    (peripheralId serviceUuid charUuid value : String) : List Effect :=
  match getPeripheral s peripheralId with
  | none => [Effect.completion (CompletionResult.err "Peripheral not found")]
  | some p =>
    match SwiftData.dataFromHexString value with
    | none => [Effect.completion (CompletionResult.err "Invalid hex string")]
    | some data =>
      match findCharacteristic p serviceUuid charUuid with
      | none => [Effect.radio (RadioOp.discoverServices p.id (some [serviceUuid]))]
      | some c =>
        if c.props.contains CharProp.writeWithoutResponse then
          [Effect.radio (RadioOp.writeValue p.id c.uuid data WriteMode.withoutResponse)]
        else if c.props.contains CharProp.write then
          [Effect.radio (RadioOp.writeValue p.id c.uuid data WriteMode.withResponse)]
        else
          [Effect.completion (CompletionResult.err "Characteristic not writable")]

/-- The peripheral didUpdateValueFor delegate callback: with no value only a
log line is produced; with a value the hex string is handed to the
notification callback.  No read completion exists to be resolved here. -/
def didUpdateValue (periph : Peripheral) (c : Characteristic) : List Effect :=
  match c.value with
  | none => []
  | some data =>
    [Effect.event (EmittedEvent.notificationReceived periph.id c.uuid
      (SwiftData.dataHexString data))]

end BleManager

namespace RNBleManager

/-- RNBleManager.isConnected: a malformed or unknown identifier resolves the
promise with false; a known peripheral resolves with whether its
CBPeripheralState is connected.  The rejecter is never invoked. -/
def isConnected (s : ManagerState) (id : String) : Except String Bool :=
  match uuidFromString id with
  | none => Except.ok false
  | some key =>
    match alookup s.peripherals key with
    | none => Except.ok false
    | some p => Except.ok (p.state = CBPeripheralState.connected)

/-- The state mapping of RNBleManager.getConnectionState. -/
def mapPeripheralState : CBPeripheralState → BleConnectionState
  | .disconnected => .disconnected
  | .connecting => .connecting
  | .connected => .connected
  | .disconnecting => .disconnecting

/-- RNBleManager.getConnectionState: a malformed or unknown identifier
resolves with BleConnectionState.disconnected.rawValue (0); otherwise the
peripheral state's raw value.  The rejecter is never invoked. -/
def getConnectionState (s : ManagerState) (id : String) : Except String Nat :=
  match uuidFromString id with
  | none => Except.ok BleConnectionState.disconnected.raw
  | some key =>
    match alookup s.peripherals key with
    | none => Except.ok BleConnectionState.disconnected.raw
    | some p => Except.ok (mapPeripheralState p.state).raw

end RNBleManager

/-! ## Concrete fixtures used by the witnesses and counterexamples -/

/-- An empty manager state (freshly initialized singleton). -/
def emptyState : ManagerState := ⟨[], [], [], none, none⟩

/-- A characteristic carrying a one-byte value, readable only. -/
def c2Char : Characteristic := ⟨"2A37", [CharProp.read], some [1]⟩

/-- A connected peripheral whose service tree holds c2Char. -/
def c2Periph : Peripheral :=
  ⟨"AAAAAAAA-BBBB-CCCC-DDDD-000000000002",
   some [⟨"180D", true, some [c2Char]⟩], CBPeripheralState.connected⟩

/-- A manager state knowing c2Periph. -/
def c2State : ManagerState :=
  ⟨[("AAAAAAAA-BBBB-CCCC-DDDD-000000000002", c2Periph)], [], [], none, none⟩

/-- A device observation used to exercise the scan path twice. -/
def c3Device : BleDevice :=
  ⟨"AAAAAAAA-BBBB-CCCC-DDDD-000000000003", some "Sensor", -40, none, [], none,
   true⟩

/-- The peripheral object accompanying c3Device. -/
def c3Periph : Peripheral :=
  ⟨"AAAAAAAA-BBBB-CCCC-DDDD-000000000003", none, CBPeripheralState.disconnected⟩

/-- A scan session started with allowDuplicates = false and no filter. -/
def c3Session : ManagerState :=
  (BleManager.startScan emptyState none
    (some ⟨BleScanMode.balanced, false, false⟩)).1

/-- A scan filter whose only active predicate is manufacturer data 0xab. -/
def c4Filter : BleScanFilter := ⟨none, none, none, some [171], none⟩

/-- A device whose manufacturer data "cd" does not match c4Filter. -/
def c4Device : BleDevice :=
  ⟨"AAAAAAAA-BBBB-CCCC-DDDD-000000000004", none, -40, some "cd", [], none,
   true⟩

/-- The peripheral object accompanying c4Device. -/
def c4Periph : Peripheral :=
  ⟨"AAAAAAAA-BBBB-CCCC-DDDD-000000000004", none, CBPeripheralState.disconnected⟩

/-- A scan session whose active filter is c4Filter. -/
def c4Session : ManagerState :=
  (BleManager.startScan emptyState (some c4Filter) none).1

/-- An identifier used by the disconnect scenario. -/
def c5Uuid : String := "AAAAAAAA-BBBB-CCCC-DDDD-000000000005"

/-- A connected peripheral with the c5Uuid identifier. -/
def c5Periph : Peripheral := ⟨c5Uuid, none, CBPeripheralState.connected⟩

/-- A manager state in which c5Periph is known and armed for auto-reconnect. -/
def c5State : ManagerState :=
  ⟨[(c5Uuid, c5Periph)], [(c5Uuid, true)], [], none, none⟩

/-- An identifier used by the write scenario. -/
def c9Uuid : String := "AAAAAAAA-BBBB-CCCC-DDDD-000000000009"

/-- A characteristic with neither write capability bit set. -/
def c9Char : Characteristic := ⟨"2A38", [CharProp.read, CharProp.notify], none⟩

/-- A connected peripheral whose service tree holds c9Char. -/
def c9Periph : Peripheral :=
  ⟨c9Uuid, some [⟨"180D", true, some [c9Char]⟩], CBPeripheralState.connected⟩

/-- A manager state knowing c9Periph. -/
def c9State : ManagerState := ⟨[(c9Uuid, c9Periph)], [], [], none, none⟩

/-! ## Helper lemmas -/

theorem alookup_aset {α : Type} (m : List (String × α)) (k : String) (v : α) :
    alookup (aset m k v) k = some v := by
  induction m with
  | nil => simp [aset, alookup]
  | cons hd tl ih =>
    obtain ⟨k1, v1⟩ := hd
    by_cases h : k1 = k
    · simp [aset, h, alookup]
    · simp [aset, h, alookup, ih]

theorem reassemblePackets_eq_join (packets : List (List Nat)) :
    DataUtils.reassemblePackets packets = packets.flatten := by
  unfold DataUtils.reassemblePackets
  suffices h : ∀ acc, packets.foldl (fun a p => a ++ p) acc = acc ++ packets.flatten by
    simpa using h []
  induction packets with
  | nil => intro acc; simp
  | cons p ps ih => intro acc; simp [ih, List.append_assoc]

theorem chunk_nil (m : Nat) : DataUtils.chunk m [] = [] := by
  rw [DataUtils.chunk]
  simp

theorem chunk_cons (m : Nat) (l : List Nat) (hm : m ≠ 0) (hl : l ≠ []) :
    DataUtils.chunk m l = l.take m :: DataUtils.chunk m (l.drop m) := by
  rw [DataUtils.chunk]
  simp [hm, hl]

theorem chunk_join (m : Nat) (hm : m ≠ 0) (l : List Nat) :
    (DataUtils.chunk m l).flatten = l := by
  by_cases hl : l = []
  · subst hl
    simp [chunk_nil]
  · have hlen : 0 < l.length := List.length_pos.mpr hl
    rw [chunk_cons m l hm hl]
    have hrec : (DataUtils.chunk m (l.drop m)).flatten = l.drop m :=
      chunk_join m hm (l.drop m)
    simp [hrec]
termination_by l.length
decreasing_by simp [List.length_drop]; omega

theorem chunk_length_le (m : Nat) (hm : m ≠ 0) (l : List Nat) :
    ∀ c ∈ DataUtils.chunk m l, c.length ≤ m := by
  by_cases hl : l = []
  · subst hl
    simp [chunk_nil]
  · have hlen : 0 < l.length := List.length_pos.mpr hl
    rw [chunk_cons m l hm hl]
    intro c hc
    rcases List.mem_cons.mp hc with h | h
    · subst h
      simp [List.length_take]
    · exact chunk_length_le m hm (l.drop m) c h
termination_by l.length
decreasing_by simp [List.length_drop]; omega

theorem splitLoop_none_of_nonpos (data : List Nat) (m : Int) (hm : m ≤ 0)
    (hd : data ≠ []) :
    ∀ (fuel : Nat) (i : Int), i ≤ 0 → ∀ packets,
      DataUtils.splitLoop data m fuel i packets = none := by
  intro fuel
  induction fuel with
  | zero => intro i hi packets; rfl
  | succ fuel ih =>
    intro i hi packets
    have hlen : 0 < data.length := List.length_pos.mpr hd
    have hlt : i < (data.length : Int) := by
      have h0 : (0 : Int) < (data.length : Int) := by exact_mod_cast hlen
      omega
    simp only [DataUtils.splitLoop]
    rw [if_pos hlt]
    exact ih (i + m) (by omega) _

theorem splitLoop_eq_chunk (data : List Nat) (m : Int) (hm : 1 ≤ m) :
    ∀ (fuel : Nat) (i : Nat), data.length - i < fuel → ∀ packets,
      DataUtils.splitLoop data m fuel (i : Int) packets =
        some (packets ++ DataUtils.chunk m.toNat (data.drop i)) := by
  intro fuel
  induction fuel with
  | zero => intro i h; omega
  | succ fuel ih =>
    intro i hfuel packets
    by_cases hlt : (i : Int) < (data.length : Int)
    · have hiN : i < data.length := by exact_mod_cast hlt
      simp only [DataUtils.splitLoop]
      rw [if_pos hlt]
      have hslice : DataUtils.jsSlice data (i : Int)
          (min ((i : Int) + m) (data.length : Int)) = (data.drop i).take m.toNat := by
        unfold DataUtils.jsSlice
        have h1 : ((i : Int)).toNat = i := by omega
        rw [h1, List.take_eq_take]
        simp [List.length_drop]
        omega
      have hcast : (i : Int) + m = ((i + m.toNat : Nat) : Int) := by push_cast; omega
      rw [hslice, hcast, ih (i + m.toNat) (by omega) (packets ++ [(data.drop i).take m.toNat])]
      have hne : data.drop i ≠ [] := by
        intro hcon
        have := List.drop_eq_nil_iff.mp hcon
        omega
      rw [chunk_cons m.toNat (data.drop i) (by omega) hne]
      simp [List.drop_drop, Nat.add_comm]
    · have hge : data.length ≤ i := by
        have := Int.not_lt.mp hlt
        exact_mod_cast this
      simp only [DataUtils.splitLoop]
      rw [if_neg hlt]
      have hdrop : data.drop i = [] := List.drop_eq_nil_iff.mpr hge
      rw [hdrop, chunk_nil]
      simp

/-! ## Claims -/

/-- C1: for every byte sequence, every mtu at least 1 and headerSize 0,
splitIntoPackets terminates and produces the ordered chunking of the data
(each packet at most mtu - 0 bytes, concatenating back to the data exactly,
the empty input giving zero packets), and reassemblePackets is its exact
left inverse. -/
theorem c1_split_reassemble_roundtrip (data : List Nat) (mtu : Int)
    (hmtu : 1 ≤ mtu) :
    DataUtils.splitIntoPackets data mtu 0 =
      some (DataUtils.chunk mtu.toNat data) ∧
    DataUtils.reassemblePackets (DataUtils.chunk mtu.toNat data) = data ∧
    (∀ p ∈ DataUtils.chunk mtu.toNat data, (p.length : Int) ≤ mtu - 0) ∧
    (data = [] → DataUtils.chunk mtu.toNat data = []) := by
  have hm0 : mtu.toNat ≠ 0 := by omega
  refine ⟨?_, ?_, ?_, ?_⟩
  · unfold DataUtils.splitIntoPackets
    have h := splitLoop_eq_chunk data (mtu - 0) (by omega) (data.length + 1) 0
      (by omega) []
    simpa using h
  · rw [reassemblePackets_eq_join]
    exact chunk_join mtu.toNat hm0 data
  · intro p hp
    have := chunk_length_le mtu.toNat hm0 data p hp
    omega
  · intro hdata
    subst hdata
    exact chunk_nil mtu.toNat

/-- Witness for c1_split_reassemble_roundtrip at data [1, 2, 3] and mtu 2. -/
theorem c1_split_reassemble_roundtrip_witness :
    (1 : Int) ≤ 2 ∧
    DataUtils.splitIntoPackets [1, 2, 3] 2 0 =
      some (DataUtils.chunk (2 : Int).toNat [1, 2, 3]) ∧
    DataUtils.reassemblePackets (DataUtils.chunk (2 : Int).toNat [1, 2, 3]) =
      [1, 2, 3] :=
  ⟨by decide,
   (c1_split_reassemble_roundtrip [1, 2, 3] 2 (by decide)).1,
   (c1_split_reassemble_roundtrip [1, 2, 3] 2 (by decide)).2.1⟩

/-- C6: decoding the encoding of the unsigned 32-bit value 2^31 yields
-2^31, not 2^31, in both endiannesses — the encoder produces the correct
four bytes, but the decoder rebuilds the value with JavaScript's signed
32-bit bitwise operators, so every value with the top bit set comes back
reduced by 2^32. -/
theorem c6_uint32_roundtrip_fails_at_top_bit :
    DataUtils.uint8ArrayToUint32LE (DataUtils.uint32LEToUint8Array 2147483648) =
      -2147483648 ∧
    DataUtils.uint8ArrayToUint32BE (DataUtils.uint32BEToUint8Array 2147483648) =
      -2147483648 ∧
    DataUtils.uint32LEToUint8Array 2147483648 = [0, 0, 0, 128] ∧
    DataUtils.uint32BEToUint8Array 2147483648 = [128, 0, 0, 0] := by
  decide

/-- C8: splitIntoPackets applied to the one-byte buffer [1] with mtu 0 and
headerSize 0 (payload size 0 - 0 = 0) produces no result, and the underlying
loop finishes under no amount of fuel: the index never advances past the
bound, so the call never returns — there is no InvalidArgument rejection. -/
theorem c8_split_nonpositive_payload_diverges :
    DataUtils.splitIntoPackets [1] 0 0 = none ∧
    ∀ (fuel : Nat), DataUtils.splitLoop [1] (0 - 0) fuel 0 [] = none := by
  constructor
  · rfl
  · intro fuel
    exact splitLoop_none_of_nonpos [1] (0 - 0) (by decide) (by decide) fuel 0
      (by decide) []

theorem hexPairsToBytes_bad : ∀ (cs : List Char),
    (∃ c ∈ cs, hexDigitVal c = none ∧ c ≠ '+' ∧ c ≠ '-') →
    SwiftData.hexPairsToBytes cs = none
  | [] => by
    intro h
    simp at h
  | [c] => by
    intro _
    rfl
  | c1 :: c2 :: rest => by
    intro h
    rcases h with ⟨c, hc, hval, hplus, hminus⟩
    simp only [List.mem_cons] at hc
    rcases hc with rfl | rfl | hmem
    · have hpair : SwiftData.uint8FromHexPair c c2 = none := by
        simp [SwiftData.uint8FromHexPair, hval, hplus, hminus]
      simp [SwiftData.hexPairsToBytes, hpair]
    · have hpair : SwiftData.uint8FromHexPair c1 c = none := by
        cases h1 : hexDigitVal c1 with
        | some v1 => simp [SwiftData.uint8FromHexPair, h1, hval]
        | none =>
          have hpd : hexDigitVal '+' = none := by decide
          have hmd : hexDigitVal '-' = none := by decide
          by_cases hp : c1 = '+'
          · simp [SwiftData.uint8FromHexPair, h1, hp, hval, hpd]
          · by_cases hm : c1 = '-'
            · simp [SwiftData.uint8FromHexPair, h1, hp, hm, hval, hmd]
            · simp [SwiftData.uint8FromHexPair, h1, hp, hm]
      simp [SwiftData.hexPairsToBytes, hpair]
    · have hrec := hexPairsToBytes_bad rest ⟨c, hmem, hval, hplus, hminus⟩
      cases hpair : SwiftData.uint8FromHexPair c1 c2 <;>
        simp [SwiftData.hexPairsToBytes, hpair, hrec]

theorem hexPairsToBytes_good : ∀ (cs : List Char), cs.length % 2 = 0 →
    (∀ c ∈ cs, (hexDigitVal c).isSome) →
    SwiftData.hexPairsToBytes cs = some (hexPairBytes cs)
  | [] => by
    intro _ _
    rfl
  | [c] => by
    intro h _
    simp at h
  | c1 :: c2 :: rest => by
    intro hlen hall
    have h1 : (hexDigitVal c1).isSome := hall c1 (by simp)
    have h2 : (hexDigitVal c2).isSome := hall c2 (by simp)
    rcases Option.isSome_iff_exists.mp h1 with ⟨v1, hv1⟩
    rcases Option.isSome_iff_exists.mp h2 with ⟨v2, hv2⟩
    have hlen2 : rest.length % 2 = 0 := by
      simp [List.length_cons] at hlen
      omega
    have hrec := hexPairsToBytes_good rest hlen2
      (fun c hc => hall c (by simp [hc]))
    simp [SwiftData.hexPairsToBytes, SwiftData.uint8FromHexPair, hv1, hv2, hrec,
      hexPairBytes]

/-- C7 counterexample: DataUtils.hexToUint8Array applied to the malformed
input "zz" returns the byte list [0] instead of failing — parseInt yields NaN
on the non-hex pair and the Uint8Array stores it as the byte 0, so the
claimed InvalidEncoding failure does not exist in this function. -/
theorem c7_hexToUint8Array_accepts_malformed :
    DataUtils.hexToUint8Array "zz" = [0] := by decide

/-- C7 amended: the boundary decoder Data.init?(hexString:) fails (returns
nil) on an odd-length input and on any input containing a character that is
neither a hexadecimal digit nor a sign; an input of hexadecimal digits
decodes to one byte per two characters in big-endian nibble order; and,
following the Swift integer parser's documented acceptance of one leading
sign per pair, "+f" decodes to [0x0f] and "-0" to [0x00] while "-f" is
rejected — whereas DataUtils.hexToUint8Array validates nothing. -/
theorem c7_hex_decoding (s : String) :
    (s.length % 2 ≠ 0 → SwiftData.dataFromHexString s = none) ∧
    ((∃ c ∈ s.toList, hexDigitVal c = none ∧ c ≠ '+' ∧ c ≠ '-') →
      SwiftData.dataFromHexString s = none) ∧
    (s.length % 2 = 0 → (∀ c ∈ s.toList, (hexDigitVal c).isSome) →
      SwiftData.dataFromHexString s = some (hexPairBytes s.toList)) ∧
    (SwiftData.dataFromHexString "+f" = some [15] ∧
     SwiftData.dataFromHexString "-0" = some [0] ∧
     SwiftData.dataFromHexString "-f" = none) := by
  refine ⟨?_, ?_, ?_, by decide⟩
  · intro hodd
    unfold SwiftData.dataFromHexString
    rw [if_neg hodd]
  · intro hbad
    unfold SwiftData.dataFromHexString
    by_cases heven : s.length % 2 = 0
    · rw [if_pos heven]
      exact hexPairsToBytes_bad s.toList hbad
    · rw [if_neg heven]
  · intro heven hall
    unfold SwiftData.dataFromHexString
    rw [if_pos heven]
    have hlist : s.toList.length % 2 = 0 := by
      have : s.length = s.toList.length := rfl
      omega
    exact hexPairsToBytes_good s.toList hlist hall

/-- Witness for c7_hex_decoding: the valid input "0aff" decodes to the two
bytes 0x0a and 0xff. -/
theorem c7_hex_decoding_witness :
    SwiftData.dataFromHexString "0aff" = some [10, 255] := by
  have h := (c7_hex_decoding "0aff").2.2.1 (by decide) (by decide)
  rw [h]
  decide

/-- C2: on the success path of a characteristic read — known peripheral,
characteristic present in the discovered tree, value arriving in the
didUpdateValueFor delegate callback — the operation's completion closure is
never invoked: readCharacteristic only issues the radio read, and the
delegate callback hands the hex value to the notification subscribers alone,
so the caller's promise is never resolved with the value. -/
theorem c2_read_value_never_resolved_to_caller :
    BleManager.readCharacteristic c2State
      "AAAAAAAA-BBBB-CCCC-DDDD-000000000002" "180D" "2A37" =
      [Effect.radio (RadioOp.readValue
        "AAAAAAAA-BBBB-CCCC-DDDD-000000000002" "2A37")] ∧
    BleManager.didUpdateValue c2Periph c2Char =
      [Effect.event (EmittedEvent.notificationReceived
        "AAAAAAAA-BBBB-CCCC-DDDD-000000000002" "2A37" "01")] ∧
    ∀ e ∈ BleManager.readCharacteristic c2State
        "AAAAAAAA-BBBB-CCCC-DDDD-000000000002" "180D" "2A37" ++
      BleManager.didUpdateValue c2Periph c2Char,
      Effect.isCompletion e = false := by
  decide

/-- C3 counterexample: in a scan session started with allowDuplicates set to
false, two delegate observations of the same identifier produce two
deviceDiscovered events, not one — the session layer has no deduplication
check. -/
theorem c3_duplicate_observation_emits_twice :
    (BleManager.didDiscover c3Session c3Periph c3Device).2 ++
      (BleManager.didDiscover (BleManager.didDiscover c3Session c3Periph
        c3Device).1 c3Periph c3Device).2 =
      [Effect.event (EmittedEvent.deviceDiscovered c3Device),
       Effect.event (EmittedEvent.deviceDiscovered c3Device)] := by
  decide

/-- C3 amended: the session layer performs no deduplication — every delegate
observation that passes the scan filter is emitted once per delivery,
whatever the allowDuplicates option says (the option is only forwarded to
the platform scan request), so the same identifier observed twice yields two
deviceDiscovered events in every session. -/
theorem c3_every_passing_observation_emitted (s : ManagerState)
    (periph : Peripheral) (device : BleDevice)
    (hpass : BleManager.shouldFilterDevice s.scanFilter device = false) :
    (BleManager.didDiscover s periph device).2 =
      [Effect.event (EmittedEvent.deviceDiscovered device)] ∧
    (BleManager.didDiscover (BleManager.didDiscover s periph device).1 periph
        device).2 =
      [Effect.event (EmittedEvent.deviceDiscovered device)] := by
  constructor
  · simp [BleManager.didDiscover, hpass]
  · simp [BleManager.didDiscover, hpass]

/-- Witness for c3_every_passing_observation_emitted at the c3 fixtures. -/
theorem c3_every_passing_observation_emitted_witness :
    (BleManager.didDiscover c3Session c3Periph c3Device).2 =
      [Effect.event (EmittedEvent.deviceDiscovered c3Device)] ∧
    (BleManager.didDiscover (BleManager.didDiscover c3Session c3Periph
        c3Device).1 c3Periph c3Device).2 =
      [Effect.event (EmittedEvent.deviceDiscovered c3Device)] :=
  c3_every_passing_observation_emitted c3Session c3Periph c3Device (by decide)

/-- C4 counterexample: with the manufacturer-data filter 0xab active and no
other predicate set, a device carrying the non-matching manufacturer data
"cd" is still emitted — the manufacturer-data predicate is never applied. -/
theorem c4_manufacturer_mismatch_still_emitted :
    (BleManager.didDiscover c4Session c4Periph c4Device).2 =
      [Effect.event (EmittedEvent.deviceDiscovered c4Device)] := by
  decide

/-- C4 amended: a device observation is suppressed or emitted according to
exactly three predicates — minimum RSSI, exact name and name prefix — in AND
semantics, with an absent field imposing no constraint; the serviceUUIDs and
manufacturerData fields of the filter do not take part in the decision (the
service allow-list is only forwarded to the platform scan request and the
manufacturer-data filter is parsed but never applied). -/
theorem c4_filter_and_semantics (svcF : Option (List String))
    (nameF namePrefixF : Option String) (mfgF : Option (List Nat))
    (minRssiF : Option Int) (device : BleDevice) :
    BleManager.shouldFilterDevice
        (some ⟨svcF, nameF, namePrefixF, mfgF, minRssiF⟩) device = false ↔
      ((∀ minRssi, minRssiF = some minRssi → minRssi ≤ device.rssi) ∧
       (∀ n, nameF = some n → device.name = some n) ∧
       (∀ pfx, namePrefixF = some pfx →
         ∃ nm, device.name = some nm ∧ pfx.isPrefixOf nm = true)) := by
  rcases minRssiF with _ | m <;> rcases nameF with _ | n <;>
    rcases namePrefixF with _ | pfx <;> cases hdn : device.name <;>
      simp [BleManager.shouldFilterDevice, hdn, Int.not_lt]

/-- C5: for every identifier whose peripheral the manager knows (which is
every peripheral the delegate can report a disconnect for), an explicit
disconnect sets the auto-reconnect flag to false in the state that is in
force before the cancel request reaches the radio, and a subsequent
unsolicited-disconnect delegate event for that identifier schedules no
reconnect attempt. -/
theorem c5_disconnect_clears_auto_reconnect (s : ManagerState) (id key : String)
    (p : Peripheral) (hu : uuidFromString id = some key)
    (hp : alookup s.peripherals key = some p) :
    alookup (BleManager.disconnect s id).1.autoReconnectMap key = some false ∧
    (BleManager.disconnect s id).2 =
      [Effect.radio (RadioOp.cancelPeripheralConnection key),
       Effect.completion CompletionResult.ok] ∧
    ∀ (periph : Peripheral), periph.id = key →
      (BleManager.didDisconnect (BleManager.disconnect s id).1 periph).2 =
        [Effect.event (EmittedEvent.connectionStateChanged key
          BleConnectionState.disconnected)] := by
  have hdef : BleManager.disconnect s id =
      ({ s with autoReconnectMap := aset s.autoReconnectMap key false },
       [Effect.radio (RadioOp.cancelPeripheralConnection key),
        Effect.completion CompletionResult.ok]) := by
    simp only [BleManager.disconnect, hu, hp]
  refine ⟨?_, ?_, ?_⟩
  · rw [hdef]
    exact alookup_aset s.autoReconnectMap key false
  · rw [hdef]
  · intro periph hpe
    rw [hdef]
    simp only [BleManager.didDisconnect, hpe]
    rw [alookup_aset]
    simp

/-- Witness for c5_disconnect_clears_auto_reconnect at the c5 fixtures. -/
theorem c5_disconnect_clears_auto_reconnect_witness :
    alookup (BleManager.disconnect c5State c5Uuid).1.autoReconnectMap c5Uuid =
      some false ∧
    (BleManager.disconnect c5State c5Uuid).2 =
      [Effect.radio (RadioOp.cancelPeripheralConnection c5Uuid),
       Effect.completion CompletionResult.ok] ∧
    (BleManager.didDisconnect (BleManager.disconnect c5State c5Uuid).1
        c5Periph).2 =
      [Effect.event (EmittedEvent.connectionStateChanged c5Uuid
        BleConnectionState.disconnected)] := by
  have h := c5_disconnect_clears_auto_reconnect c5State c5Uuid c5Uuid c5Periph
    (by decide) (by decide)
  exact ⟨h.1, h.2.1, h.2.2 c5Periph (by decide)⟩

/-- C9: for a known peripheral, a valid hex payload and a characteristic
found in the discovered tree, the write is issued without response when the
writeWithoutResponse bit is advertised, with response when only the write
bit is advertised, and with neither bit set it fails with "Characteristic
not writable" and issues no radio operation at all. -/
theorem c9_write_mode_selection (s : ManagerState)
    (peripheralId serviceUuid charUuid value : String) (p : Peripheral)
    (data : List Nat) (c : Characteristic)
    (hp : BleManager.getPeripheral s peripheralId = some p)
    (hd : SwiftData.dataFromHexString value = some data)
    (hc : BleManager.findCharacteristic p serviceUuid charUuid = some c) :
    (c.props.contains CharProp.writeWithoutResponse = true →
      BleManager.writeCharacteristic s peripheralId serviceUuid charUuid value =
        [Effect.radio
          (RadioOp.writeValue p.id c.uuid data WriteMode.withoutResponse)]) ∧
    (c.props.contains CharProp.writeWithoutResponse = false →
      c.props.contains CharProp.write = true →
      BleManager.writeCharacteristic s peripheralId serviceUuid charUuid value =
        [Effect.radio
          (RadioOp.writeValue p.id c.uuid data WriteMode.withResponse)]) ∧
    (c.props.contains CharProp.writeWithoutResponse = false →
      c.props.contains CharProp.write = false →
      BleManager.writeCharacteristic s peripheralId serviceUuid charUuid value =
        [Effect.completion (CompletionResult.err "Characteristic not writable")] ∧
      ∀ e ∈ BleManager.writeCharacteristic s peripheralId serviceUuid charUuid
          value, Effect.isRadio e = false) := by
  refine ⟨?_, ?_, ?_⟩
  · intro h1
    have hm : CharProp.writeWithoutResponse ∈ c.props := by simpa using h1
    simp [BleManager.writeCharacteristic, hp, hd, hc, hm]
  · intro h1 h2
    have hm1 : CharProp.writeWithoutResponse ∉ c.props := by simpa using h1
    have hm2 : CharProp.write ∈ c.props := by simpa using h2
    simp [BleManager.writeCharacteristic, hp, hd, hc, hm1, hm2]
  · intro h1 h2
    have hm1 : CharProp.writeWithoutResponse ∉ c.props := by simpa using h1
    have hm2 : CharProp.write ∉ c.props := by simpa using h2
    constructor
    · simp [BleManager.writeCharacteristic, hp, hd, hc, hm1, hm2]
    · intro e he
      simp [BleManager.writeCharacteristic, hp, hd, hc, hm1, hm2] at he
      subst he
      rfl

/-- Witness for c9_write_mode_selection: writing to c9Char, which has
neither write bit, completes with "Characteristic not writable". -/
theorem c9_write_mode_selection_witness :
    BleManager.writeCharacteristic c9State c9Uuid "180D" "2A38" "01" =
      [Effect.completion (CompletionResult.err "Characteristic not writable")] :=
  ((c9_write_mode_selection c9State c9Uuid "180D" "2A38" "01" c9Periph [1]
      c9Char (by decide) (by decide) (by decide)).2.2 (by decide) (by decide)).1

/-- C10: an identifier that does not parse as a UUID, or that parses but
names no known peripheral, makes isConnected resolve with false and
getConnectionState resolve with 0 (DISCONNECTED); neither rejects. -/
theorem c10_unknown_identifier_resolves (s : ManagerState) (id : String)
    (h : uuidFromString id = none ∨
      ∀ key, uuidFromString id = some key → alookup s.peripherals key = none) :
    RNBleManager.isConnected s id = Except.ok false ∧
    RNBleManager.getConnectionState s id = Except.ok 0 := by
  cases hu : uuidFromString id with
  | none =>
    exact ⟨by simp [RNBleManager.isConnected, hu],
      by simp [RNBleManager.getConnectionState, hu, BleConnectionState.raw]⟩
  | some key =>
    rcases h with h | h
    · rw [h] at hu
      cases hu
    · have hk := h key hu
      exact ⟨by simp [RNBleManager.isConnected, hu, hk],
        by simp [RNBleManager.getConnectionState, hu, hk, BleConnectionState.raw]⟩

/-- Witness for c10_unknown_identifier_resolves at the malformed identifier
"not-a-uuid" against the empty manager state. -/
theorem c10_unknown_identifier_resolves_witness :
    RNBleManager.isConnected emptyState "not-a-uuid" = Except.ok false ∧
    RNBleManager.getConnectionState emptyState "not-a-uuid" = Except.ok 0 :=
  c10_unknown_identifier_resolves emptyState "not-a-uuid" (Or.inl (by decide))
